import Mathlib

/-
Verification of netcfgbu (network configuration backup tool).

This file gives a shallow embedding of the parts of the program that the
checked claims are about, translated from the Python sources:

  * netcfgbu/linter.py              (lint_content)
  * netcfgbu/filtering.py           (create_filter_function, create_filter)
  * netcfgbu/cli/common.py          (handle_exception, process_generic_task,
                                     process_login_task, process_tasks)
  * netcfgbu/connectors/basic.py    (BasicSSHConnector: _setup_creds, login,
                                     backup_config, save_config, __init__)
  * netcfgbu/jumphosts.py           (JumpHost._init_filters, init_jumphosts,
                                     get_jumphost)

Texts are modelled as `List Char` (Python `str`).  Python exceptions are an
inductive type; a coroutine completion either returns a value or raises.
Regular-expression constraints and inventory records are kept abstract as
boolean predicates, matching how filtering.py treats its Filter callables.
-/

/- ------------------------------------------------------------------ -/
/- Python string primitives                                           -/
/- ------------------------------------------------------------------ -/

/-- The character list of a string literal (Python `str` as `List Char`). -/
def strL (s : String) : List Char :=
  s.data

/-- Python `s.rfind(sub)`: the highest index at which `sub` occurs in `s`,
or `-1` when `sub` does not occur.  (For the empty `sub` Python returns
`len(s)`, which this definition also does.) -/
def pyRfind (s sub : List Char) : Int :=
  match ((List.range (s.length + 1)).filter
      (fun i => List.isPrefixOf sub (s.drop i))).getLast? with
  | some i => (i : Int)
  | none => -1

/-- Python slice `s[start:stop]` for non-negative bounds; `stop = none` is
Python's `s[start:]`.  Out-of-range bounds are clipped exactly as in Python. -/
def pySlice (s : List Char) (start : Nat) (stop? : Option Nat) : List Char :=
  (s.take (stop?.getD s.length)).drop start

/- ------------------------------------------------------------------ -/
/- netcfgbu/linter.py                                                 -/
/- ------------------------------------------------------------------ -/

/-- LinterSpec (config_model.py): both marker fields optional.  The
`config_starts_after` marker is a regular expression in the source; every
shipped linter uses a literal, newline-free marker and the embedding models
that fragment (a literal matched at the start of a line). -/
structure LinterSpec where
  config_starts_after : Option (List Char)
  config_ends_at : Option (List Char)
deriving DecidableEq

/-- `re.search(f"^marker.*$", content, re.MULTILINE)` for a literal,
newline-free `marker`: scan the line starts of `content`; at the first line
that begins with `marker` return the match end, i.e. the offset of that
line's terminating newline (or of the end of text for the last line).
`rest` is the remaining text, `offset` its position in the whole text. -/
def findLineMatchEnd (marker : List Char) (rest : List Char) (offset : Nat) : Option Nat :=
  let lineLen := (rest.takeWhile (fun c => c ≠ '\n')).length
  if List.isPrefixOf marker rest then
    some (offset + lineLen)
  else if h : lineLen < rest.length then
    findLineMatchEnd marker (rest.drop (lineLen + 1)) (offset + lineLen + 1)
  else
    none
termination_by rest.length
decreasing_by
  simp only [List.length_drop]
  omega

/-- Start offset computed by `lint_content` (linter.py lines 21-27): `0`
unless `config_starts_after` is set (and truthy, i.e. non-empty) and the
multiline search finds a matching line, in which case `match.end() + 1`. -/
def lintStartOffset (config_content : List Char) (lint_spec : LinterSpec) : Nat :=
  match lint_spec.config_starts_after with
  | some marker =>
    if marker = [] then 0
    else
      match findLineMatchEnd marker config_content 0 with
      | some e => e + 1
      | none => 0
  | none => 0

/-- End offset computed by `lint_content` (linter.py lines 29-33): when
`config_ends_at` is set (and truthy), `config_content.rfind("\n" + ends_at)`
is taken as the end offset only when it is `> 0`; otherwise the end offset
stays `None` (end of string). -/
def lintEndOffset (config_content : List Char) (lint_spec : LinterSpec) : Option Nat :=
  match lint_spec.config_ends_at with
  | some marker =>
    if marker = [] then none
    else
      let found := pyRfind config_content ('\n' :: marker)
      if found > 0 then some found.toNat else none
  | none => none

/-- linter.py `lint_content`: returns `config_content[start_offset:end_offset]`.
(The `remove_lines` step is commented out in the source.) -/
def lint_content (config_content : List Char) (lint_spec : LinterSpec) : List Char :=
  pySlice config_content (lintStartOffset config_content lint_spec)
    (lintEndOffset config_content lint_spec)

/- ------------------------------------------------------------------ -/
/- netcfgbu/filtering.py                                              -/
/- ------------------------------------------------------------------ -/

/-- filtering.py `create_filter_function`: the returned predicate is
`lambda rec: not any(optest_fn(op_fn(rec)) for op_fn in op_filters)`.
Records `R` and the parsed per-constraint Filter callables are abstract,
just as the source treats them (opaque callables built by
`parse_constraint`). -/
def create_filter_function {R : Type} (op_filters : List (R → Bool))
    (optest_fn : Bool → Bool) : R → Bool :=
  fun rec => !(op_filters.any (fun op_fn => optest_fn (op_fn rec)))

/-- filtering.py `create_filter`: parse each constraint into a Filter
callable (`parse_constraint`, abstracted here as a function `C → R → Bool`),
pick `optest_fn = operator.not_` when `include=True` and `operator.truth`
otherwise, and build the combined predicate. -/
def create_filter {R C : Type} (parse_constraint : C → R → Bool)
    (constraints : List C) (include_mode : Bool) : R → Bool :=
  create_filter_function (constraints.map parse_constraint)
    (if include_mode then Bool.not else id)

/- ------------------------------------------------------------------ -/
/- Python exceptions and task completions                             -/
/- ------------------------------------------------------------------ -/

/-- The exception instances flowing through cli/common.py, by their exact
Python class (`handle_exception` looks reasons up by `type(exc)`).
`osError` carries the `errno` attribute value (`none` models `errno=None`);
`other` stands for any class outside the taxonomy and carries the result of
an `errno` attribute lookup on it (`none` = no such attribute). -/
inductive PyExc where
  | permissionDenied (msg : String)
  | connectionLost (msg : String)
  | hostKeyNotVerifiable (msg : String)
  | gaierror (code : Int) (msg : String)
  | asyncioTimeoutError (msg : String)
  | asyncsshTimeoutError (msg : String)
  | osError (errno : Option Int) (msg : String)
  | exception (msg : String)
  | attributeError
  | other (clsName : String) (errnoAttr : Option (Option Int)) (msg : String)
deriving DecidableEq

/-- Python attribute lookup `exc.errno`: `none` means the attribute is
missing and the access raises `AttributeError`; `some v` is the attribute's
value (`v = none` models `errno = None`).  `OSError` and its subclasses
(`socket.gaierror`; `TimeoutError`, which `asyncio.TimeoutError` aliases on
Python >= 3.11) carry the attribute; `asyncssh.Error` subclasses and plain
`Exception` do not. -/
def getattr_errno : PyExc → Option (Option Int)
  | .permissionDenied _ => none
  | .connectionLost _ => none
  | .hostKeyNotVerifiable _ => none
  | .gaierror code _ => some (some code)
  | .asyncioTimeoutError _ => some none
  | .asyncsshTimeoutError _ => none
  | .osError errno _ => some errno
  | .exception _ => none
  | .attributeError => none
  | .other _ errnoAttr _ => errnoAttr

/-- The reason label `exception_map.get(type(exc), type(exc).__name__)`
computes in cli/common.py `handle_exception` (lines 26-36), given that the
map construction itself succeeded. -/
def exception_reason : PyExc → String
  | .permissionDenied _ => "All credentials failed"
  | .connectionLost _ => "ConnectionLost"
  | .hostKeyNotVerifiable _ => "HostKeyNotVerifiable"
  | .gaierror _ _ => "NameResolutionError"
  | .asyncioTimeoutError _ => "TimeoutError"
  | .asyncsshTimeoutError _ => "TimeoutError"
  | .osError errno _ => if errno = some 113 then "NoRouteToHost" else "OSError"
  | .exception _ => "Exception"
  | .attributeError => "AttributeError"
  | .other clsName _ _ => clsName

/-- A Python value returned by a task coroutine, with its truthiness.
`pyExc` is an exception *object returned as a value* (exception instances
are truthy in Python); `pyStr` covers `test_login`'s username result. -/
inductive PyVal where
  | pyTrue
  | pyNone
  | pyStr (s : String)
  | pyExc (e : PyExc)
deriving DecidableEq

/-- Python truthiness of the completion values above. -/
def truthy : PyVal → Bool
  | .pyTrue => true
  | .pyNone => false
  | .pyStr s => !(s == "")
  | .pyExc _ => true

/-- A task completion: `task.result()` either returns a value or raises. -/
inductive TaskOutcome where
  | ret (v : PyVal)
  | raised (e : PyExc)
deriving DecidableEq

/- ------------------------------------------------------------------ -/
/- netcfgbu/cli/common.py                                             -/
/- ------------------------------------------------------------------ -/

/-- An entry of `report.task_results[True]`: the login path appends the bare
record, the generic path appends the `(rec, result)` pair. -/
inductive OkEntry (R : Type) where
  | login_rec (rec : R)
  | result_entry (rec : R) (v : PyVal)
deriving DecidableEq

/-- cli/report.py `Report.task_results`: `ok` is `task_results[True]`,
`fail` is `task_results[False]` (pairs of record and reason label). -/
structure Report (R : Type) where
  ok : List (OkEntry R)
  fail : List (R × String)
deriving DecidableEq

/-- A `Report` as freshly constructed (`defaultdict(list)`). -/
def emptyReport {R : Type} : Report R :=
  ⟨[], []⟩

/-- cli/common.py `handle_exception` (lines 16-40).  The function first
builds `exception_map`; the value for the `OSError` key is the eagerly
evaluated `"NoRouteToHost" if exc.errno == 113 else "OSError"`, so building
the map reads `exc.errno` for *every* exception.  When `exc` has no `errno`
attribute that read raises `AttributeError` (modelled as `.error`), before
anything is appended to the report.  Otherwise the reason label is appended
to `report.task_results[False]`. -/
def handle_exception {R : Type} (exc : PyExc) (rec : R) (report : Report R) :
    Except PyExc (Report R) :=
  match getattr_errno exc with
  | none => .error .attributeError
  | some _ => .ok { report with fail := report.fail ++ [(rec, exception_reason exc)] }

/-- cli/common.py `process_generic_task` (lines 112-142).  A truthy result
is appended to `task_results[True]`; a falsy result raises a synthetic
`Exception(f"{cli_command} failed")` into `handle_exception` inside the
`try`, so when that call itself raises, the `except Exception` branch
catches it and calls `handle_exception` again (whose own failure
propagates); a raising task goes to `handle_exception` from the `except`
branch directly.  The success/failure callbacks are external hooks that do
not touch the report and are not modelled. -/
def process_generic_task {R : Type} (rec : R) (outcome : TaskOutcome)
    (cli_command : String) (report : Report R) : Except PyExc (Report R) :=
  match outcome with
  | .ret result =>
    if truthy result then
      .ok { report with ok := report.ok ++ [.result_entry rec result] }
    else
      match handle_exception (.exception (cli_command ++ " failed")) rec report with
      | .ok rpt => .ok rpt
      | .error e => handle_exception e rec report
  | .raised e => handle_exception e rec report

/-- cli/common.py `process_login_task` (lines 83-109): a truthy
`login_user` appends the record to `task_results[True]`; a falsy one
appends `(rec, "all credentials failed")` to `task_results[False]`
directly; a raising task goes through `handle_exception`.  (The record
mutations `rec["login_user"]`/`rec["attempts"]` do not affect the lists'
lengths and are not modelled.) -/
def process_login_task {R : Type} (rec : R) (outcome : TaskOutcome)
    (report : Report R) : Except PyExc (Report R) :=
  match outcome with
  | .ret result =>
    if truthy result then
      .ok { report with ok := report.ok ++ [.login_rec rec] }
    else
      .ok { report with fail := report.fail ++ [(rec, "all credentials failed")] }
  | .raised e => handle_exception e rec report

/-- cli/common.py `process_tasks` (lines 43-81): consume completions (given
here in completion order), dispatching to the login or generic handler.  An
exception escaping a handler aborts the loop and propagates out of the
dispatcher; the first component records it (`none` = clean completion), the
second is the report state at that moment (the source mutates the report in
place).  The jump-host connection step does not touch the report. -/
def process_tasks {R : Type} (cli_command : String) :
    List (R × TaskOutcome) → Report R → Option PyExc × Report R
  | [], report => (none, report)
  | (rec, outcome) :: rest, report =>
    match (if cli_command == "login" then process_login_task rec outcome report
           else process_generic_task rec outcome cli_command report) with
    | .ok rpt => process_tasks cli_command rest rpt
    | .error e => (some e, report)

/- ------------------------------------------------------------------ -/
/- netcfgbu/connectors/basic.py : credentials and login               -/
/- ------------------------------------------------------------------ -/

/-- config_model.py `Credential`: username and password.  The fields are
optional strings because `_setup_creds` constructs the host-record
credential from `dict.get`, which yields `None` for a key stored with value
`None` (pydantic's secret wrapper is immaterial to the claims). -/
structure Credential where
  username : Option String
  password : Option String
deriving DecidableEq

/-- Python `key in d` for a dict modelled as an association list. -/
def dict_contains (d : List (String × Option String)) (k : String) : Bool :=
  d.any (fun kv => kv.fst == k)

/-- Python `d.get(key)` for the same dict model (`none` both when the key is
absent and when it is stored with value `None`, exactly as `dict.get`). -/
def dict_get (d : List (String × Option String)) (k : String) : Option String :=
  match d.find? (fun kv => kv.fst == k) with
  | some kv => kv.snd
  | none => none

/-- connectors/basic.py `BasicSSHConnector._setup_creds` (lines 230-259):
host-record credential when both the `"username"` and `"password"` keys are
present in the record dict, then `os_spec.credentials` when truthy, then
`app_cfg.defaults.credentials` unconditionally, then `app_cfg.credentials`
when truthy.  (Extending with an empty list is a no-op, so the truthiness
guards and plain concatenation agree.) -/
def _setup_creds (host_cfg : List (String × Option String))
    (os_spec_credentials : Option (List Credential))
    (defaults_credentials : Credential)
    (app_credentials : Option (List Credential)) : List Credential :=
  let creds : List Credential :=
    if dict_contains host_cfg "username" && dict_contains host_cfg "password" then
      [⟨dict_get host_cfg "username", dict_get host_cfg "password"⟩]
    else []
  let creds := match os_spec_credentials with
    | some cs => creds ++ cs
    | none => creds
  let creds := creds ++ [defaults_credentials]
  match app_credentials with
  | some cs => creds ++ cs
  | none => creds

/-- The credential list as §4.B of the spec words it: host-record
credential (only when both `username` and `password` are present in the
record), then the OS-profile credentials in listed order, then the single
global default credential, then the global extra credentials in listed
order. -/
def credential_order_spec (host_cfg : List (String × Option String))
    (os_spec_credentials : Option (List Credential))
    (defaults_credentials : Credential)
    (app_credentials : Option (List Credential)) : List Credential :=
  (if dict_contains host_cfg "username" && dict_contains host_cfg "password" then
    [⟨dict_get host_cfg "username", dict_get host_cfg "password"⟩]
  else []) ++
    os_spec_credentials.getD [] ++ [defaults_credentials] ++ app_credentials.getD []

/-- The `__init__` guard `if not self.creds: raise RuntimeError(...)`
(connectors/basic.py lines 107-108): true exactly when the constructor
raises "No credentials". -/
def init_raises_no_credentials (creds : List Credential) : Bool :=
  creds.isEmpty

/-- What one `asyncssh.connect` attempt with a given credential does:
succeed, raise `PermissionDenied`, or raise some other exception. -/
inductive ConnAttempt where
  | success
  | permDenied
  | otherError (e : PyExc)
deriving DecidableEq

/-- Outcome of `BasicSSHConnector.login`: a connection (tagged with the
credential that was accepted), the final `PermissionDenied` raised after
exhausting the list (carrying the attempted count it reports), or some
other exception propagating out of the loop. -/
inductive LoginResult where
  | connected (cred : Credential)
  | permissionDenied (attempted : Nat)
  | fatal (e : PyExc)
deriving DecidableEq

/-- The `for try_cred in self.creds` loop of connectors/basic.py `login`
(lines 288-325): `PermissionDenied` is caught and the loop continues; any
other exception is re-raised; falling off the end raises `PermissionDenied`
reporting `len(self.creds)` (passed in as `total`). -/
def loginLoop (attempt : Credential → ConnAttempt) (total : Nat) :
    List Credential → LoginResult
  | [] => .permissionDenied total
  | cred :: rest =>
    match attempt cred with
    | .success => .connected cred
    | .permDenied => loginLoop attempt total rest
    | .otherError e => .fatal e

/-- connectors/basic.py `BasicSSHConnector.login` over its credential list,
with the network abstracted as the per-credential outcome `attempt`. -/
def login (attempt : Credential → ConnAttempt) (creds : List Credential) :
    LoginResult :=
  loginLoop attempt creds.length creds

/-- The login contract as the spec words it (§4.E Phase 1, §7): credentials
are tried in order; `PermissionDenied` is recoverable so the outcome is
decided by the first credential whose attempt is not `PermissionDenied`
(connect on success, abort-and-propagate on any other error); if every
credential is refused, `PermissionDenied` is raised reporting the number of
credentials attempted. -/
def login_spec_model (attempt : Credential → ConnAttempt)
    (creds : List Credential) : LoginResult :=
  match creds.find? (fun c => decide (attempt c ≠ ConnAttempt.permDenied)) with
  | some c =>
    match attempt c with
    | .success => .connected c
    | .otherError e => .fatal e
    | .permDenied => .permissionDenied creds.length
  | none => .permissionDenied creds.length

/- ------------------------------------------------------------------ -/
/- netcfgbu/connectors/basic.py : backup_config and save_config       -/
/- ------------------------------------------------------------------ -/

/-- connectors/basic.py `BasicSSHConnector.backup_config` (lines 125-144)
as a function of its three effectful phases.  A login failure raises out of
the coroutine.  An exception from `get_running_config` is caught and bound
to `retval` — the coroutine *returns* the exception object — and
`self.config` stays unset so nothing is saved.  On capture success the
config is saved when truthy (non-empty); an exception from `save_config`
propagates; otherwise the coroutine returns `True`. -/
def backup_config (login_result : Except PyExc Unit)
    (capture_result : Except PyExc (List Char))
    (save_result : Except PyExc Unit) : TaskOutcome :=
  match login_result with
  | .error e => .raised e
  | .ok _ =>
    match capture_result with
    | .error e => .ret (.pyExc e)
    | .ok config =>
      if config.isEmpty then .ret .pyTrue
      else
        match save_result with
        | .error e => .raised e
        | .ok _ => .ret .pyTrue

/-- A filesystem operation performed by `save_config`. -/
inductive FsOp where
  | openWrite (path : String)
  | write (path : String) (data : List Char)
  | rename (src : String) (dst : String)
deriving DecidableEq

/-- Whether a filesystem operation is a rename. -/
def isRename : FsOp → Bool
  | .rename _ _ => true
  | _ => false

/-- The file a filesystem operation affects (destination for rename). -/
def fsTarget : FsOp → String
  | .openWrite path => path
  | .write path _ => path
  | .rename _ dst => dst

/-- connectors/basic.py `BasicSSHConnector.save_config` (lines 384-406) as
the sequence of filesystem operations it performs: strip every `"\r"`,
apply the configured linter when the OS spec names one (`app_cfg.linters`
is modelled as a total map — config validation rejects unknown linter
names), then open `<configs_dir>/<host>.cfg` with mode `"w+"` and write the
content followed by `"\n"`.  The bytes-decoding step is modelled as already
done (texts are `List Char`). -/
def save_config (name : String) (configs_dir : String) (config : List Char)
    (os_spec_linter : Option String) (linters : String → LinterSpec) :
    List FsOp :=
  let config_content := config.filter (fun c => c ≠ '\r')
  let config_content := match os_spec_linter with
    | some linter_name => lint_content config_content (linters linter_name)
    | none => config_content
  let save_file := configs_dir ++ "/" ++ name ++ ".cfg"
  [FsOp.openWrite save_file, FsOp.write save_file config_content,
    FsOp.write save_file ['\n']]

/- ------------------------------------------------------------------ -/
/- netcfgbu/jumphosts.py                                              -/
/- ------------------------------------------------------------------ -/

/-- config_model.py `JumphostSpec` (the fields the claims use): the
constraint lists are called `include` and `exclude` in the source;
constraints stay abstract as in the filtering model. -/
structure JumphostSpec (C : Type) where
  proxy : String
  include_list : Option (List C)
  exclude_list : Option (List C)
deriving DecidableEq

/-- jumphosts.py `JumpHost._init_filters` (lines 66-77): one include-mode
filter when `spec.include` is truthy (not `None`, not empty), plus one
exclude-mode filter when `spec.exclude` is truthy, each built with
`create_filter`. -/
def _init_filters {R C : Type} (parse_constraint : C → R → Bool)
    (spec : JumphostSpec C) : List (R → Bool) :=
  (match spec.include_list with
   | some cs => if cs.isEmpty then [] else [create_filter parse_constraint cs true]
   | none => []) ++
  (match spec.exclude_list with
   | some cs => if cs.isEmpty then [] else [create_filter parse_constraint cs false]
   | none => [])

/-- jumphosts.py `JumpHost.filter` (lines 96-105):
`any(_f(inv_rec) for _f in self.filters)`. -/
def jh_filter {R C : Type} (parse_constraint : C → R → Bool)
    (spec : JumphostSpec C) (inv_rec : R) : Bool :=
  (_init_filters parse_constraint spec).any (fun f => f inv_rec)

/-- jumphosts.py `init_jumphosts` (lines 115-135): for each inventory
record take `first(jh for jh in jh_list if jh.filter(rec))`; the Python
code collects the non-`None` results into a set of jump-host objects
(`JumpHost.available`).  Membership is what the claims are about, so the
set is modelled as the list of per-record first matches (duplicates are
immaterial). -/
def init_jumphosts {R C : Type} (parse_constraint : C → R → Bool)
    (jumphost_specs : List (JumphostSpec C)) (inventory : List R) :
    List (JumphostSpec C) :=
  inventory.filterMap
    (fun rec => jumphost_specs.find? (fun jh => jh_filter parse_constraint jh rec))

/-- jumphosts.py `get_jumphost` (lines 162-171):
`first(jh for jh in JumpHost.available if jh.filter(inv_rec))`. -/
def get_jumphost {R C : Type} (parse_constraint : C → R → Bool)
    (available : List (JumphostSpec C)) (inv_rec : R) : Option (JumphostSpec C) :=
  available.find? (fun jh => jh_filter parse_constraint jh inv_rec)

/- ------------------------------------------------------------------ -/
/- Theorems                                                           -/
/- ------------------------------------------------------------------ -/

/-- Mapping before `any` composes the predicates. -/
theorem list_any_map_comp {α β : Type} (f : α → β) (l : List α) (p : β → Bool) :
    (l.map f).any p = l.any (fun a => p (f a)) := by
  induction l with
  | nil => rfl
  | cons a l ih => simp [ih]

/-- Any Python slice of a text is a contiguous segment of it. -/
theorem pySlice_flank (s : List Char) (a : Nat) (b : Option Nat) :
    ∃ u v, u ++ pySlice s a b ++ v = s := by
  refine ⟨(s.take (b.getD s.length)).take a, s.drop (b.getD s.length), ?_⟩
  rw [pySlice, List.take_append_drop, List.take_append_drop]

/-- C5 counterexample: the linter is not idempotent.  With
`config_ends_at = "end"`, linting `"x\nend\nend"` cuts at the last
`"\nend"` and yields `"x\nend"`; linting that result again cuts at its own
`"\nend"` occurrence and yields `"x"`. -/
theorem lint_content_not_idempotent :
    lint_content (lint_content (strL "x\nend\nend") ⟨none, some (strL "end")⟩)
        ⟨none, some (strL "end")⟩ ≠
      lint_content (strL "x\nend\nend") ⟨none, some (strL "end")⟩ := by
  decide

/-- C5 (amended): applying the linter twice need not equal applying it
once; the second application always returns a contiguous slice of the
first application's output, and can be strictly shorter (as the
counterexample shows). -/
theorem lint_content_reapply_is_slice (x : List Char) (s : LinterSpec) :
    ∃ u v, u ++ lint_content (lint_content x s) s ++ v = lint_content x s :=
  pySlice_flank (lint_content x s) (lintStartOffset (lint_content x s) s)
    (lintEndOffset (lint_content x s) s)

/-- C8: the end-marker search discards a match at offset 0.  On the text
`"\nend x"` with `config_ends_at = "end x"`, the last (only) occurrence of
`"\n" + ends_at` is at offset 0 (`rfind` returns 0), but the `> 0` guard in
linter.py line 32 treats it like "not found": the linter returns the whole
text instead of `text[0:0] = ""` as the claim states. -/
theorem lint_content_ignores_match_at_zero :
    pyRfind (strL "\nend x") ('\n' :: strL "end x") = 0 ∧
    lint_content (strL "\nend x") ⟨none, some (strL "end x")⟩ = strL "\nend x" ∧
    lint_content (strL "\nend x") ⟨none, some (strL "end x")⟩ ≠
      pySlice (strL "\nend x") 0 (some 0) := by
  decide

/-- C2 counterexample: with the constraint list `[true, false]` (one
constraint matching the record, one not), at least one constraint matches,
yet the include-mode filter built by `create_filter` drops the record. -/
theorem create_filter_include_not_any :
    ((fun (b : Bool) (_ : Unit) => b) true () = true) ∧
    ([true, false].any (fun c => (fun (b : Bool) (_ : Unit) => b) c ()) = true) ∧
    (create_filter (fun (b : Bool) (_ : Unit) => b) [true, false] true () = false) := by
  decide

/-- C2 (amended): for every record and non-empty constraint list, the
include-mode filter keeps the record iff *every* constraint matches it
(`not any(not match)`), and the exclude-mode filter keeps the record iff
*no* constraint matches it. -/
theorem create_filter_modes {R C : Type} (parse_constraint : C → R → Bool)
    (constraints : List C) (h : constraints ≠ []) (rec : R) :
    (create_filter parse_constraint constraints true rec =
      constraints.all (fun c => parse_constraint c rec)) ∧
    (create_filter parse_constraint constraints false rec =
      !(constraints.any (fun c => parse_constraint c rec))) := by
  refine ⟨?_, ?_⟩
  · simp [create_filter, create_filter_function, list_any_map_comp,
      List.all_eq_not_any_not]
  · simp [create_filter, create_filter_function, list_any_map_comp]

/-- Witness for the amended C2 theorem at the single constraint `[true]`
and record `()`. -/
theorem create_filter_modes_witness :
    ([true] ≠ ([] : List Bool)) ∧
    (create_filter (fun (b : Bool) (_ : Unit) => b) [true] true () =
      [true].all (fun c => (fun (b : Bool) (_ : Unit) => b) c ())) ∧
    (create_filter (fun (b : Bool) (_ : Unit) => b) [true] false () =
      !([true].any (fun c => (fun (b : Bool) (_ : Unit) => b) c ()))) :=
  ⟨by decide, create_filter_modes (fun b _ => b) [true] (by decide) ()⟩

/-- C1: a backup task whose capture phase raises (here
`asyncio.TimeoutError("Timeout awaiting prompt")`) completes with the
exception *returned* as its value; the exception object is truthy, so
`process_generic_task` appends the host to `report.task_results[True]`
(PASS) and appends nothing to `report.task_results[False]` — the opposite
of what the claim requires. -/
theorem backup_capture_exception_counted_ok :
    process_generic_task (0 : Nat)
        (backup_config (.ok ())
          (.error (PyExc.asyncioTimeoutError "Timeout awaiting prompt")) (.ok ()))
        "backup" (emptyReport : Report Nat) =
      .ok { ok := [OkEntry.result_entry 0
              (PyVal.pyExc (PyExc.asyncioTimeoutError "Timeout awaiting prompt"))],
            fail := [] } := by
  rfl

/-- C3: the dispatcher does not give every task a report entry.  A single
backup task raising `asyncssh.PermissionDenied` reaches `handle_exception`,
whose `exception_map` construction reads `exc.errno`; `PermissionDenied`
has no `errno` attribute, so `handle_exception` raises `AttributeError`,
the dispatcher loop aborts, and the report ends with 0 = |ok| + |fail| ≠
|tasks| = 1. -/
theorem process_tasks_loses_failed_task :
    (process_tasks "backup"
        [((0 : Nat), TaskOutcome.raised (PyExc.permissionDenied "perm denied"))]
        (emptyReport : Report Nat)).1 = some PyExc.attributeError ∧
    (process_tasks "backup"
        [((0 : Nat), TaskOutcome.raised (PyExc.permissionDenied "perm denied"))]
        (emptyReport : Report Nat)).2.ok.length +
      (process_tasks "backup"
        [((0 : Nat), TaskOutcome.raised (PyExc.permissionDenied "perm denied"))]
        (emptyReport : Report Nat)).2.fail.length ≠
      [((0 : Nat), TaskOutcome.raised (PyExc.permissionDenied "perm denied"))].length := by
  decide

/-- Unrolling the credential loop: its outcome is decided by the first
credential whose attempt is not `PermissionDenied`. -/
theorem loginLoop_eq_find (attempt : Credential → ConnAttempt) (total : Nat)
    (creds : List Credential) :
    loginLoop attempt total creds =
      match creds.find? (fun c => decide (attempt c ≠ ConnAttempt.permDenied)) with
      | some c =>
        match attempt c with
        | .success => .connected c
        | .otherError e => .fatal e
        | .permDenied => .permissionDenied total
      | none => .permissionDenied total := by
  induction creds with
  | nil => rfl
  | cons c rest ih =>
    by_cases hc : attempt c = ConnAttempt.permDenied
    · rw [List.find?_cons_of_neg _ (by simp [hc])]
      simpa [loginLoop, hc] using ih
    · rw [List.find?_cons_of_pos _ (by simp [hc])]
      cases ha : attempt c with
      | success => simp [loginLoop, ha]
      | permDenied => exact absurd ha hc
      | otherError e => simp [loginLoop, ha]

/-- C6: the login loop matches the spec's credential-trial contract:
credentials are tried in order, `PermissionDenied` is recoverable (the next
credential is tried), any other error aborts the loop immediately and
propagates, and when every credential is refused the final
`PermissionDenied` reports the number of credentials attempted. -/
theorem login_matches_spec (attempt : Credential → ConnAttempt)
    (creds : List Credential) :
    login attempt creds = login_spec_model attempt creds := by
  rw [login, login_spec_model, loginLoop_eq_find]

/-- C7: the credential list `_setup_creds` builds is exactly the ordered
concatenation the spec states: host-record credential (only when both the
`username` and `password` keys are present in the record), then the
OS-profile credentials in listed order, then the single global default
credential, then the global extra credentials in listed order. -/
theorem setup_creds_is_ordered_concat (host_cfg : List (String × Option String))
    (os_spec_credentials : Option (List Credential))
    (defaults_credentials : Credential)
    (app_credentials : Option (List Credential)) :
    _setup_creds host_cfg os_spec_credentials defaults_credentials app_credentials =
      credential_order_spec host_cfg os_spec_credentials defaults_credentials
        app_credentials := by
  cases os_spec_credentials <;> cases app_credentials <;>
    simp [_setup_creds, credential_order_spec]

/-- C10: `_setup_creds` always appends the global default credential, so
the list it returns is never empty and the constructor's
`if not self.creds: raise RuntimeError("No credentials")` branch can never
be taken. -/
theorem no_credentials_branch_unreachable (host_cfg : List (String × Option String))
    (os_spec_credentials : Option (List Credential))
    (defaults_credentials : Credential)
    (app_credentials : Option (List Credential)) :
    init_raises_no_credentials
      (_setup_creds host_cfg os_spec_credentials defaults_credentials
        app_credentials) = false := by
  cases os_spec_credentials <;> cases app_credentials <;>
    simp [_setup_creds, init_raises_no_credentials, List.isEmpty_iff]

/-- A jump-host spec with neither an include nor an exclude list gets no
filters, so its `filter` method rejects every record. -/
theorem jh_filter_no_constraints {R C : Type} (parse_constraint : C → R → Bool)
    (spec : JumphostSpec C) (h1 : spec.include_list = none)
    (h2 : spec.exclude_list = none) (rec : R) :
    jh_filter parse_constraint spec rec = false := by
  simp [jh_filter, _init_filters, h1, h2]

/-- C9: a jump-host spec that defines neither an include list nor an
exclude list is never selected: it is not in the set `init_jumphosts`
collects, and `get_jumphost` never returns it for any record. -/
theorem jumphost_without_filters_never_selected {R C : Type}
    (parse_constraint : C → R → Bool) (jumphost_specs : List (JumphostSpec C))
    (inventory : List R) (spec : JumphostSpec C)
    (h1 : spec.include_list = none) (h2 : spec.exclude_list = none) :
    spec ∉ init_jumphosts parse_constraint jumphost_specs inventory ∧
    ∀ (available : List (JumphostSpec C)) (rec : R),
      get_jumphost parse_constraint available rec ≠ some spec := by
  constructor
  · intro hmem
    rw [init_jumphosts, List.mem_filterMap] at hmem
    obtain ⟨rec, -, hfind⟩ := hmem
    have hf := List.find?_some hfind
    rw [jh_filter_no_constraints parse_constraint spec h1 h2 rec] at hf
    exact Bool.false_ne_true hf
  · intro available rec hfind
    rw [get_jumphost] at hfind
    have hf := List.find?_some hfind
    rw [jh_filter_no_constraints parse_constraint spec h1 h2 rec] at hf
    exact Bool.false_ne_true hf

/-- Witness for C9 at a concrete two-spec configuration: the spec
`⟨"p", none, none⟩` has no constraint lists and is neither collected by
`init_jumphosts` nor returned by `get_jumphost`. -/
theorem jumphost_without_filters_never_selected_witness :
    ((⟨"p", none, none⟩ : JumphostSpec Bool).include_list = none) ∧
    ((⟨"p", none, none⟩ : JumphostSpec Bool).exclude_list = none) ∧
    (⟨"p", none, none⟩ : JumphostSpec Bool) ∉
      init_jumphosts (fun (b : Bool) (_ : Unit) => b)
        [⟨"q", some [true], none⟩, ⟨"p", none, none⟩] [()] ∧
    get_jumphost (fun (b : Bool) (_ : Unit) => b)
        [⟨"q", some [true], none⟩, ⟨"p", none, none⟩] () ≠
      some (⟨"p", none, none⟩ : JumphostSpec Bool) :=
  ⟨rfl, rfl,
    (jumphost_without_filters_never_selected (fun (b : Bool) (_ : Unit) => b)
      [⟨"q", some [true], none⟩, ⟨"p", none, none⟩] [()]
      ⟨"p", none, none⟩ rfl rfl).1,
    (jumphost_without_filters_never_selected (fun (b : Bool) (_ : Unit) => b)
      [⟨"q", some [true], none⟩, ⟨"p", none, none⟩] [()]
      ⟨"p", none, none⟩ rfl rfl).2
      [⟨"q", some [true], none⟩, ⟨"p", none, none⟩] ()⟩

/-- C4 counterexample: on a concrete capture (host `"sw1"`, configs dir
`"/var/configs"`, no linter) the filesystem trace of `save_config`
contains no rename at all — there is no temporary-sibling-then-rename
step — and every operation targets the final path directly. -/
theorem save_config_no_rename_at_input :
    ((save_config "sw1" "/var/configs" (strL "hostname sw1") none
        (fun _ => ⟨none, none⟩)).any isRename = false) ∧
    ((save_config "sw1" "/var/configs" (strL "hostname sw1") none
        (fun _ => ⟨none, none⟩)).all
      (fun op => fsTarget op == "/var/configs/sw1.cfg") = true) := by
  decide

/-- C4 (amended): for every capture, `save_config` opens
`<configs_dir>/<host>.cfg` itself (mode `"w+"`) and writes the content and
trailing newline in place: every operation of its filesystem trace targets
the final path and none is a rename, so no temporary sibling file or
atomic-rename step is involved. -/
theorem save_config_writes_target_directly (name configs_dir : String)
    (config : List Char) (os_spec_linter : Option String)
    (linters : String → LinterSpec) :
    (save_config name configs_dir config os_spec_linter linters).all
      (fun op => !(isRename op) &&
        (fsTarget op == configs_dir ++ "/" ++ name ++ ".cfg")) = true := by
  cases os_spec_linter <;> simp [save_config, isRename, fsTarget]
